import Mathlib

/-!
Player store (store/sql_player_store.go)

A shallow embedding of the ten operations of `SqlPlayerStore`.  Every operation
starts a goroutine whose body builds one `StoreResult`, talks to the backing
store through `ps.GetMaster()`, and finishes with `storeChannel <- result`
followed by `close(storeChannel)`.  The body of each goroutine is embedded as a
function that returns the backing-store calls it issued and the events it
produced on its channel, in program order.

Code outside `sql_player_store.go` (the `model` package, the `SqlStore`
helpers, the database mapper) is not part of the sources; what the operations
need from it is carried by the records `Env` and `DbMap`.
-/

namespace Gogogo

/-! ## Data model -/

/-- Modelled from the spec: `model.Player` is declared outside the sources; the
fields are those of the Player Record (section 3), with the column names
registered by `NewSqlPlayerStore`. -/
structure Player where
  Id : String
  Playername : String
  Password : String
  Email : String
  AllowStats : String
  Locale : String
  CreateAt : Int
  UpdateAt : Int
  DeleteAt : Int
  deriving DecidableEq, Repr

/-- The zero value `model.Player{}`. -/
def Player.zero : Player :=
  { Id := "", Playername := "", Password := "", Email := "", AllowStats := "",
    Locale := "", CreateAt := 0, UpdateAt := 0, DeleteAt := 0 }

/-- Modelled from the spec: the error value built by `model.NewLocError`, which
is declared outside the sources.  It records the arguments of the call: the
operation (`Where`), the message, and the diagnostic detail. -/
structure LocError where
  Where : String
  Message : String
  Details : String
  deriving DecidableEq, Repr

/-- Modelled from the spec: `model.NewLocError(where, message, nil, details)`;
the third argument is `nil` at every call site of the store. -/
def NewLocError (location message details : String) : LocError :=
  { Where := location, Message := message, Details := details }

/-- The dynamic values the operations store in `StoreResult.Data`
(an `interface{}` in the source). -/
inductive StoreData where
  /-- a `*model.Player` -/
  | player (p : Player)
  /-- a `[2]*model.Player{new, old}` -/
  | playerPair (new old : Player)
  /-- a `string` (a player id) -/
  | playerId (id : String)
  /-- a `[]*model.Player` -/
  | players (l : List Player)
  /-- an `int64` -/
  | count (n : Int)
  deriving DecidableEq, Repr

/-- The struct `StoreResult{Data, Err}`; `none` is the `nil` of Go, and
`StoreResult{}` is `{ Data := none, Err := none }`. -/
structure StoreResult where
  Data : Option StoreData := none
  Err : Option LocError := none
  deriving DecidableEq, Repr

/-- A value bound to a named query parameter (`map[string]interface{}`). -/
inductive SqlArg where
  | str (s : String)
  | int (n : Int)
  deriving DecidableEq, Repr

/-- A call issued on `ps.GetMaster()`. -/
inductive DbCall where
  | Insert (p : Player)
  | Get (key : String)
  | Update (p : Player)
  | Exec (query : String) (args : List (String × SqlArg))
  | Select (query : String)
  | SelectOne (query : String) (args : List (String × SqlArg))
  | SelectInt (query : String)
  deriving DecidableEq, Repr

/-- An event on the `StoreChannel` returned by an operation. -/
inductive ChanEvent where
  | send (r : StoreResult)
  | close
  deriving DecidableEq, Repr

/-- What one run of the goroutine of an operation did: the backing-store calls
and the channel events, each in program order. -/
structure Run where
  calls : List DbCall
  events : List ChanEvent
  deriving DecidableEq, Repr

/-- The result a receiver reads from the channel: the first value sent. -/
def Run.delivered (r : Run) : Option StoreResult :=
  match r.events with
  | ChanEvent.send res :: _ => some res
  | _ => none

/-- The answers of the backing store (`ps.GetMaster()`), one function per
method used by the player store.  An error is its text (`err.Error()`), `none`
is a `nil` error.  As in Go every method returns its value and its error side
by side. -/
structure DbMap where
  /-- the error of `Insert(player)` -/
  Insert : Player → Option String
  /-- the row (`nil` when there is none) and the error of `Get(model.Player{}, key)` -/
  Get : String → Option Player × Option String
  /-- the affected-row count and the error of `Update(player)` -/
  Update : Player → Int × Option String
  /-- the error of `Exec(query, args)`; the `sql.Result` is discarded -/
  Exec : String → List (String × SqlArg) → Option String
  /-- the holder slice afterwards and the error of `Select(&data, query)` -/
  Select : String → List Player × Option String
  /-- the holder afterwards and the error of `SelectOne(&player, query, args)` -/
  SelectOne : Player → String → List (String × SqlArg) → Player × Option String
  /-- the count and the error of `SelectInt(query)` -/
  SelectInt : String → Int × Option String

/-- What the player store uses from code that is not in the sources. -/
structure Env where
  /-- the record after the hook `(*model.Player).PreSave` -/
  PreSave : Player → Player
  /-- the record after the hook `(*model.Player).PreUpdate` -/
  PreUpdate : Player → Player
  /-- the validation error of `(*model.Player).IsValid`, `none` when valid -/
  IsValid : Player → Option LocError
  /-- the function `IsUniqueConstraintError(err, indexNames)` of the `store` package -/
  IsUniqueConstraintError : String → List String → Bool
  /-- the value `model.GetMillis()` returns -/
  GetMillis : Int
  /-- the identifier `trustedUpdateData` read by `Update` -/
  trustedUpdateData : Bool
  /-- the value of the expression `Player.Id` that line 83 of `Update` passes
  as the key of the get-by-key; the sources declare no identifier `Player` -/
  PlayerId : String
  /-- the function `strings.ToLower` -/
  ToLower : String → String

/-! ## Operations -/

/-- The body of `SqlPlayerStore.Save` (lines 40-64). -/
def Save (env : Env) (db : DbMap) (player : Player) : Run :=
  let result : StoreResult := {}
  let player := env.PreSave player
  let result := { result with Err := env.IsValid player }
  if result.Err.isSome then
    { calls := [], events := [ChanEvent.send result, ChanEvent.close] }
  else
    let result :=
      match db.Insert player with
      | some err =>
        if env.IsUniqueConstraintError err ["Email", "players_email_key", "idx_players_email_unique"] then
          { result with Err := some (NewLocError "SqlPlayerStore.Save" "Email already exists"
              ("player_id=" ++ player.Id ++ ", " ++ err)) }
        else if env.IsUniqueConstraintError err ["Playername", "players_username_key", "idx_players_username_unique"] then
          { result with Err := some (NewLocError "SqlPlayerStore.Save" "Username already exists"
              ("player_id=" ++ player.Id ++ ", " ++ err)) }
        else
          { result with Err := some (NewLocError "SqlPlayerStore.Save" "Player saving error"
              ("player_id=" ++ player.Id ++ ", " ++ err)) }
      | none => { result with Data := some (StoreData.player player) }
    { calls := [DbCall.Insert player], events := [ChanEvent.send result, ChanEvent.close] }

/-- Lines 89-94 of `Update`: the fields of the incoming record overwritten
from the fetched one. -/
def overwriteFromOld (trustedUpdateData : Bool) (player oldPlayer : Player) : Player :=
  let player := { player with CreateAt := oldPlayer.CreateAt }
  let player := { player with Password := oldPlayer.Password }
  if !trustedUpdateData then { player with DeleteAt := oldPlayer.DeleteAt } else player

/-- The body of `SqlPlayerStore.Update` (lines 72-113).  The key of the
get-by-key on line 83 is the expression `Player.Id`, the parameter
`env.PlayerId`; the details of the errors use `player.Id`, the `Id` of the
incoming record. -/
def Update (env : Env) (db : DbMap) (player : Player) : Run :=
  let result : StoreResult := {}
  let player := env.PreUpdate player
  let result := { result with Err := env.IsValid player }
  if result.Err.isSome then
    { calls := [], events := [ChanEvent.send result, ChanEvent.close] }
  else
    match db.Get env.PlayerId with
    | (_, some err) =>
      let result := { result with Err := some (NewLocError "SqlPlayerStore.Update" ""
        ("player_id=" ++ player.Id ++ ", " ++ err)) }
      { calls := [DbCall.Get env.PlayerId], events := [ChanEvent.send result, ChanEvent.close] }
    | (none, none) =>
      let result := { result with Err := some (NewLocError "SqlPlayerStore.Update"
        "Cannot find player to update" ("player_id=" ++ player.Id)) }
      { calls := [DbCall.Get env.PlayerId], events := [ChanEvent.send result, ChanEvent.close] }
    | (some oldPlayer, none) =>
      let player := overwriteFromOld env.trustedUpdateData player oldPlayer
      let result :=
        match db.Update player with
        | (_, some err) =>
          if env.IsUniqueConstraintError err ["Email", "players_email_key", "idx_players_email_unique"] then
            { result with Err := some (NewLocError "SqlPlayerStore.Update" "Email already exists"
                ("player_id=" ++ player.Id ++ ", " ++ err)) }
          else if env.IsUniqueConstraintError err ["Username", "players_username_key", "idx_players_username_unique"] then
            { result with Err := some (NewLocError "SqlPlayerStore.Update" "Username already exists"
                ("player_id=" ++ player.Id ++ ", " ++ err)) }
          else
            { result with Err := some (NewLocError "SqlPlayerStore.Update" "Player updating error"
                ("player_id=" ++ player.Id ++ ", " ++ err)) }
        | (count, none) =>
          if count ≠ 1 then
            { result with Err := some (NewLocError "SqlPlayerStore.Update" "player update error"
                ("player_id=" ++ player.Id ++ ", count=" ++ toString count)) }
          else
            { result with Data := some (StoreData.playerPair player oldPlayer) }
      { calls := [DbCall.Get env.PlayerId, DbCall.Update player],
        events := [ChanEvent.send result, ChanEvent.close] }

/-- The body of `SqlPlayerStore.UpdateUpdateAt` (lines 121-134). -/
def UpdateUpdateAt (env : Env) (db : DbMap) (playerId : String) : Run :=
  let result : StoreResult := {}
  let curTime := env.GetMillis
  let query := "UPDATE Players SET UpdateAt = :Time WHERE Id = :PlayerId"
  let args := [("Time", SqlArg.int curTime), ("PlayerId", SqlArg.str playerId)]
  let result :=
    match db.Exec query args with
    | some _ => { result with Err := some (NewLocError "SqlPlayerStore.UpdateUpdateAt"
        "Player updated at error" ("player_id=" ++ playerId)) }
    | none => { result with Data := some (StoreData.playerId playerId) }
  { calls := [DbCall.Exec query args], events := [ChanEvent.send result, ChanEvent.close] }

/-- The body of `SqlPlayerStore.UpdatePassword` (lines 142-153). -/
def UpdatePassword (db : DbMap) (playerId newPassword : String) : Run :=
  let result : StoreResult := {}
  let query := "UPDATE Players SET Password = :Password WHERE Id = :PlayerId"
  let args := [("Password", SqlArg.str newPassword), ("PlayerId", SqlArg.str playerId)]
  let result :=
    match db.Exec query args with
    | some _ => { result with Err := some (NewLocError "SqlPlayerStore.UpdatePassword"
        "Player update password error" ("player_id=" ++ playerId)) }
    | none => { result with Data := some (StoreData.playerId playerId) }
  { calls := [DbCall.Exec query args], events := [ChanEvent.send result, ChanEvent.close] }

/-- The body of `SqlPlayerStore.Get` (lines 161-175). -/
def Get (db : DbMap) (id : String) : Run :=
  let result : StoreResult := {}
  let result :=
    match db.Get id with
    | (_, some err) => { result with Err := some (NewLocError "SqlPlayerStore.Get"
        "Get player by id error" ("player_id=" ++ id ++ ", " ++ err)) }
    | (none, none) => { result with Err := some (NewLocError "SqlPlayerStore.Get"
        "Missing player error" ("player_id=" ++ id)) }
    | (some obj, none) => { result with Data := some (StoreData.player obj) }
  { calls := [DbCall.Get id], events := [ChanEvent.send result, ChanEvent.close] }

/-- The body of `SqlPlayerStore.GetAll` (lines 183-196). -/
def GetAll (db : DbMap) : Run :=
  let result : StoreResult := {}
  let query := "SELECT * FROM Players"
  let (data, err) := db.Select query
  let result :=
    match err with
    | some e => { result with Err := some (NewLocError "SqlPlayerStore.GetAll"
        "Get all players error" e) }
    | none => result
  let result := { result with Data := some (StoreData.players data) }
  { calls := [DbCall.Select query], events := [ChanEvent.send result, ChanEvent.close] }

/-- The body of `SqlPlayerStore.GetByEmail` (lines 204-219). -/
def GetByEmail (env : Env) (db : DbMap) (email : String) : Run :=
  let result : StoreResult := {}
  let email := env.ToLower email
  let player := Player.zero
  let query := "SELECT * FROM Players WHERE Email = :Email"
  let args := [("Email", SqlArg.str email)]
  let (player, err) := db.SelectOne player query args
  let result :=
    match err with
    | some e => { result with Err := some (NewLocError "SqlPlayerStore.GetByEmail"
        "Missing player error" ("email=" ++ email ++ ", " ++ e)) }
    | none => result
  let result := { result with Data := some (StoreData.player player) }
  { calls := [DbCall.SelectOne query args], events := [ChanEvent.send result, ChanEvent.close] }

/-- The body of `SqlPlayerStore.GetByUsername` (lines 227-242). -/
def GetByUsername (env : Env) (db : DbMap) (username : String) : Run :=
  let result : StoreResult := {}
  let username := env.ToLower username
  let player := Player.zero
  let query := "SELECT * FROM Players WHERE Username = :Username"
  let args := [("Username", SqlArg.str username)]
  let (player, err) := db.SelectOne player query args
  let result :=
    match err with
    | some e => { result with Err := some (NewLocError "SqlPlayerStore.GetByUsername"
        "Missing player error" ("username=" ++ username ++ ", " ++ e)) }
    | none => result
  let result := { result with Data := some (StoreData.player player) }
  { calls := [DbCall.SelectOne query args], events := [ChanEvent.send result, ChanEvent.close] }

/-- The body of `SqlPlayerStore.GetTotalPlayersCount` (lines 250-261). -/
def GetTotalPlayersCount (db : DbMap) : Run :=
  let result : StoreResult := {}
  let query := "SELECT COUNT(Id) FROM Players"
  let result :=
    match db.SelectInt query with
    | (_, some e) => { result with Err := some (NewLocError "SqlPlayerStore.GetTotalPlayersCount"
        "Get total players count error" e) }
    | (count, none) => { result with Data := some (StoreData.count count) }
  { calls := [DbCall.SelectInt query], events := [ChanEvent.send result, ChanEvent.close] }

/-- The body of `SqlPlayerStore.PermanentDelete` (lines 269-278). -/
def PermanentDelete (db : DbMap) (playerId : String) : Run :=
  let result : StoreResult := {}
  let query := "DELETE FROM Players WHERE Id = :PlayerId"
  let args := [("PlayerId", SqlArg.str playerId)]
  let result :=
    match db.Exec query args with
    | some e => { result with Err := some (NewLocError "SqlPlayerStore.PermanentDelete"
        "Permanent delete player error" ("playerId=" ++ playerId ++ ", " ++ e)) }
    | none => result
  { calls := [DbCall.Exec query args], events := [ChanEvent.send result, ChanEvent.close] }

/-! ## Concrete collaborators

The definitions below give the parameters of `Env` and `DbMap` concrete values,
so that the operations can be evaluated on explicit inputs. -/

/-- Whether `sub` occurs in `s` as a contiguous run of characters
(`strings.Contains` on lists of characters). -/
def containsChars : List Char → List Char → Bool
  | [], sub => sub.isEmpty
  | c :: cs, sub => sub.isPrefixOf (c :: cs) || containsChars cs sub

/-- Whether the text `sub` occurs in the text `s` (`strings.Contains`). -/
def containsStr (s sub : String) : Bool :=
  containsChars s.data sub.data

/-- Modelled from the spec: `IsUniqueConstraintError` is declared outside the
sources.  Section 4.2: the known constraint and index names are pattern-matched
against the raw error text; the text is a violation for a list of names when
one of the names occurs in it. -/
def IsUniqueConstraintError (err : String) (indexName : List String) : Bool :=
  indexName.any (fun name => containsStr err name)

/-- Modelled from the spec: the structural validator of section 4.3, declared
outside the sources: `Id`, `Playername` and `Email` are required, and every
text field is within its size limit (section 3). -/
def IsValid (p : Player) : Option LocError :=
  if p.Id = "" ∨ 24 < p.Id.length then
    some (NewLocError "Player.IsValid" "Invalid player id" "")
  else if p.Playername = "" ∨ 64 < p.Playername.length then
    some (NewLocError "Player.IsValid" "Invalid player name" ("player_id=" ++ p.Id))
  else if 128 < p.Password.length then
    some (NewLocError "Player.IsValid" "Invalid password" ("player_id=" ++ p.Id))
  else if p.Email = "" ∨ 128 < p.Email.length then
    some (NewLocError "Player.IsValid" "Invalid email" ("player_id=" ++ p.Id))
  else if 5 < p.Locale.length then
    some (NewLocError "Player.IsValid" "Invalid locale" ("player_id=" ++ p.Id))
  else
    none

/-- Modelled from the spec: the pre-save hook of section 4.3, declared outside
the sources: it assigns the id and the timestamps when they are missing. -/
def PreSave (newId : String) (now : Int) (p : Player) : Player :=
  let p := if p.Id = "" then { p with Id := newId } else p
  let p := if p.CreateAt = 0 then { p with CreateAt := now } else p
  { p with UpdateAt := p.CreateAt }

/-- Modelled from the spec: the pre-update hook of section 4.3, declared
outside the sources: it refreshes `UpdateAt` and leaves the rest untouched. -/
def PreUpdate (now : Int) (p : Player) : Player :=
  { p with UpdateAt := now }

/-- Lower-casing of the ASCII letters, character by character; on ASCII text
it agrees with `strings.ToLower`. -/
def asciiLower (s : String) : String :=
  String.mk (s.data.map Char.toLower)

/-- An environment built from the hooks above, at time `1700000000000`, with
an untrusted update, `asciiLower` for `strings.ToLower`, and `p1`, the id of
the record of the scenarios, for the expression `Player.Id`. -/
def sampleEnv : Env :=
  { PreSave := PreSave "id0000000000000000000001" 1700000000000
    PreUpdate := PreUpdate 1700000000000
    IsValid := IsValid
    IsUniqueConstraintError := IsUniqueConstraintError
    GetMillis := 1700000000000
    trustedUpdateData := false
    PlayerId := "p1"
    ToLower := asciiLower }

/-- A backing store that holds no row and accepts every write: inserts, updates
and statements succeed and affect one row, lookups find nothing. -/
def emptyDb : DbMap :=
  { Insert := fun _ => none
    Get := fun _ => (none, none)
    Update := fun _ => (1, none)
    Exec := fun _ _ => none
    Select := fun _ => ([], none)
    SelectOne := fun holder _ _ => (holder, some "sql: no rows in result set")
    SelectInt := fun _ => (0, none) }

/-- The record of the spec scenarios: player `ann`. -/
def ann : Player :=
  { Id := "p1", Playername := "ann", Password := "p", Email := "a@x.com",
    AllowStats := "1", Locale := "en-US", CreateAt := 1600000000000,
    UpdateAt := 1600000000000, DeleteAt := 0 }

/-- A backing store that holds `ann` under its id, and nothing else, and
answers every write with the error text `err`. -/
def conflictDb (err : String) : DbMap :=
  { emptyDb with
    Insert := fun _ => some err
    Get := fun key => if key = ann.Id then (some ann, none) else (none, none)
    Update := fun _ => (0, some err) }

/-- A backing store that answers every call with the error text `err`. -/
def failingDb (err : String) : DbMap :=
  { Insert := fun _ => some err
    Get := fun _ => (none, some err)
    Update := fun _ => (0, some err)
    Exec := fun _ _ => some err
    Select := fun _ => ([], some err)
    SelectOne := fun holder _ _ => (holder, some err)
    SelectInt := fun _ => (0, some err) }

/-- A backing store that holds `old` under its id, and nothing else, and whose
update affects `n` rows without error. -/
def countingDb (old : Player) (n : Int) : DbMap :=
  { emptyDb with
    Get := fun key => if key = old.Id then (some old, none) else (none, none)
    Update := fun _ => (n, none) }

/-- The text MySQL reports for a second row with the `Playername` of an
existing one (error 1062 on the unique key of the column). -/
def playernameViolation : String :=
  "Error 1062: Duplicate entry ann for key Playername"

/-! ## Helper lemmas -/

theorem isPrefixOf_self_chars (l : List Char) : l.isPrefixOf l = true := by
  induction l with
  | nil => rfl
  | cons c cs ih => simp [List.isPrefixOf, ih]

theorem containsChars_append_right (xs sub : List Char) :
    containsChars (xs ++ sub) sub = true := by
  induction xs with
  | nil =>
    cases sub with
    | nil => rfl
    | cons c cs => simp [containsChars, isPrefixOf_self_chars]
  | cons x xs ih => simp [containsChars, ih]

/-- A text occurs in every text that ends with it. -/
theorem containsStr_append_right (a b : String) : containsStr (a ++ b) b = true := by
  simp [containsStr, String.data_append, containsChars_append_right]

theorem isPrefixOf_append_chars (l ys : List Char) : l.isPrefixOf (l ++ ys) = true := by
  induction l with
  | nil => simp [List.isPrefixOf]
  | cons c cs ih => simp [List.isPrefixOf, ih]

theorem containsChars_append_mid (xs sub ys : List Char) :
    containsChars (xs ++ (sub ++ ys)) sub = true := by
  induction xs with
  | nil =>
    cases h : sub ++ ys with
    | nil =>
      have : sub = [] := (List.append_eq_nil.mp h).1
      simp [containsChars, this]
    | cons c cs =>
      have hp := isPrefixOf_append_chars sub ys
      rw [h] at hp
      simp [containsChars, hp]
  | cons x xs ih => simp [containsChars, ih]

/-- A text occurs in every text built around it. -/
theorem containsStr_append_mid (a b c : String) : containsStr (a ++ b ++ c) b = true := by
  simp only [containsStr, String.data_append, List.append_assoc]
  exact containsChars_append_mid a.data b.data c.data

/-! ## The generic update -/

/-- C5: for every validated record with an existing prior record, the one the
get-by-key of line 83 returned, when the backing-store update returns no error
and an affected-row count `n`, `Update` delivers the consistency error
`player update error` with no data if `n ≠ 1`, and it delivers the success
whose data is the pair (new record, prior record) if and only if `n = 1`. -/
theorem Update_affected_rows (env : Env) (db : DbMap) (p old : Player) (n : Int)
    (hv : env.IsValid (env.PreUpdate p) = none)
    (hg : db.Get env.PlayerId = (some old, none))
    (hu : db.Update (overwriteFromOld env.trustedUpdateData (env.PreUpdate p) old) = (n, none)) :
    (n ≠ 1 →
      (Update env db p).delivered = some
        { Data := none
          Err := some (NewLocError "SqlPlayerStore.Update" "player update error"
            ("player_id=" ++ (overwriteFromOld env.trustedUpdateData (env.PreUpdate p) old).Id
              ++ ", count=" ++ toString n)) }) ∧
    ((Update env db p).delivered = some
        { Data := some (StoreData.playerPair
            (overwriteFromOld env.trustedUpdateData (env.PreUpdate p) old) old)
          Err := none } ↔ n = 1) := by
  by_cases h1 : n = 1
  · simp [Update, hv, hg, hu, h1, Run.delivered]
  · simp [Update, hv, hg, hu, h1, Run.delivered]

/-- The witness of C5: the backing store holds `ann` under its id, which is
also `Player.Id`, and the update of `ann` affects two rows. -/
theorem Update_affected_rows_witness :
    ((2 : Int) ≠ 1 →
      (Update sampleEnv (countingDb ann 2) ann).delivered = some
        { Data := none
          Err := some (NewLocError "SqlPlayerStore.Update" "player update error"
            ("player_id=" ++ (overwriteFromOld sampleEnv.trustedUpdateData
                (sampleEnv.PreUpdate ann) ann).Id ++ ", count=" ++ toString (2 : Int))) }) ∧
    ((Update sampleEnv (countingDb ann 2) ann).delivered = some
        { Data := some (StoreData.playerPair
            (overwriteFromOld sampleEnv.trustedUpdateData (sampleEnv.PreUpdate ann) ann) ann)
          Err := none } ↔ (2 : Int) = 1) :=
  Update_affected_rows sampleEnv (countingDb ann 2) ann ann 2 (by decide) (by decide) (by decide)

/-- The get-by-key of `Update` is issued for `Player.Id`, not for the id of the
incoming record: here the backing store holds `ann` under `p1`, `Player.Id` is
`p2`, and the update of `ann` ends in the not-found error after a lookup of
`p2`. -/
theorem Update_looks_up_Player_Id :
    Update { sampleEnv with PlayerId := "p2" } (countingDb ann 1) ann =
      { calls := [DbCall.Get "p2"]
        events :=
          [ChanEvent.send
            { Data := none
              Err := some (NewLocError "SqlPlayerStore.Update" "Cannot find player to update"
                "player_id=p1") },
           ChanEvent.close] } := by
  decide

/-! ## Save -/

/-- C2: for every record that passes validation and every error text returned
by the backing-store insert, `Save` sends one result, with no data and one
error: `Email already exists` when the text is a unique-constraint violation on
`Email`, else `Username already exists` when it is one on `Playername`, else
the generic `Player saving error`; the detail of the error ends with the
underlying error text. -/
theorem Save_classifies_insert_error (env : Env) (db : DbMap) (p : Player) (err : String)
    (hv : env.IsValid (env.PreSave p) = none)
    (hi : db.Insert (env.PreSave p) = some err) :
    ∃ e : LocError,
      (Save env db p).events = [ChanEvent.send { Data := none, Err := some e }, ChanEvent.close] ∧
      e.Message =
        (if env.IsUniqueConstraintError err ["Email", "players_email_key", "idx_players_email_unique"]
          then "Email already exists"
         else if env.IsUniqueConstraintError err
            ["Playername", "players_username_key", "idx_players_username_unique"]
          then "Username already exists"
         else "Player saving error") ∧
      e.Details = "player_id=" ++ (env.PreSave p).Id ++ ", " ++ err ∧
      containsStr e.Details err = true := by
  simp only [Save, hv, hi, Option.isSome_none, Bool.false_eq_true, if_false]
  split
  · exact ⟨_, rfl, rfl, rfl, containsStr_append_right _ _⟩
  · split
    · exact ⟨_, rfl, rfl, rfl, containsStr_append_right _ _⟩
    · exact ⟨_, rfl, rfl, rfl, containsStr_append_right _ _⟩

/-- The witness of C2: the insert of `ann` fails on the unique key of
`Playername`. -/
theorem Save_classifies_insert_error_witness :
    ∃ e : LocError,
      (Save sampleEnv (failingDb playernameViolation) ann).events
        = [ChanEvent.send { Data := none, Err := some e }, ChanEvent.close] ∧
      e.Message =
        (if sampleEnv.IsUniqueConstraintError playernameViolation
            ["Email", "players_email_key", "idx_players_email_unique"]
          then "Email already exists"
         else if sampleEnv.IsUniqueConstraintError playernameViolation
            ["Playername", "players_username_key", "idx_players_username_unique"]
          then "Username already exists"
         else "Player saving error") ∧
      e.Details = "player_id=" ++ (sampleEnv.PreSave ann).Id ++ ", " ++ playernameViolation ∧
      containsStr e.Details playernameViolation = true :=
  Save_classifies_insert_error sampleEnv (failingDb playernameViolation) ann playernameViolation
    (by decide) (by decide)

/-- C10: for every record, `Save` validates the record the pre-save hook
returns, and when that validation fails the one result it sends is the
validation error with no data, and no call reaches the backing store. -/
theorem Save_validation_failure (env : Env) (db : DbMap) (p : Player) (e : LocError)
    (hv : env.IsValid (env.PreSave p) = some e) :
    (Save env db p).events = [ChanEvent.send { Data := none, Err := some e }, ChanEvent.close] ∧
    (Save env db p).calls = [] := by
  simp [Save, hv]

/-- The witness of C10: a record without `Email` and without `Id`; the hook
assigns the id, so the validator reports the email, not the id. -/
theorem Save_validation_failure_witness :
    (Save sampleEnv emptyDb { ann with Id := "", Email := "" }).events
      = [ChanEvent.send
          { Data := none
            Err := some (NewLocError "Player.IsValid" "Invalid email"
              "player_id=id0000000000000000000001") },
         ChanEvent.close] ∧
    (Save sampleEnv emptyDb { ann with Id := "", Email := "" }).calls = [] :=
  Save_validation_failure sampleEnv emptyDb { ann with Id := "", Email := "" }
    (NewLocError "Player.IsValid" "Invalid email" "player_id=id0000000000000000000001")
    (by decide)

/-! ## Get -/

/-- C9: for every id, `Get` delivers the fetched record as data, without error,
when the get-by-key returns a row; the not-found error `Missing player error`
with no data when it returns no row and no error; the persistence error
`Get player by id error` with no data when it returns an error.  The three
results differ pairwise. -/
theorem Get_three_outcomes (db : DbMap) (id : String) :
    (∀ row : Player, db.Get id = (some row, none) →
      (Get db id).delivered = some { Data := some (StoreData.player row), Err := none }) ∧
    (db.Get id = (none, none) →
      (Get db id).delivered = some
        { Data := none
          Err := some (NewLocError "SqlPlayerStore.Get" "Missing player error"
            ("player_id=" ++ id)) }) ∧
    (∀ (obj : Option Player) (err : String), db.Get id = (obj, some err) →
      (Get db id).delivered = some
        { Data := none
          Err := some (NewLocError "SqlPlayerStore.Get" "Get player by id error"
            ("player_id=" ++ id ++ ", " ++ err)) }) ∧
    (∀ (row : Player) (err : String),
      ({ Data := some (StoreData.player row), Err := none } : StoreResult) ≠
        { Data := none
          Err := some (NewLocError "SqlPlayerStore.Get" "Missing player error"
            ("player_id=" ++ id)) } ∧
      ({ Data := some (StoreData.player row), Err := none } : StoreResult) ≠
        { Data := none
          Err := some (NewLocError "SqlPlayerStore.Get" "Get player by id error"
            ("player_id=" ++ id ++ ", " ++ err)) } ∧
      ({ Data := none
         Err := some (NewLocError "SqlPlayerStore.Get" "Missing player error"
            ("player_id=" ++ id)) } : StoreResult) ≠
        { Data := none
          Err := some (NewLocError "SqlPlayerStore.Get" "Get player by id error"
            ("player_id=" ++ id ++ ", " ++ err)) }) := by
  refine ⟨?_, ?_, ?_, ?_⟩
  · intro row h
    simp [Get, h, Run.delivered]
  · intro h
    simp [Get, h, Run.delivered]
  · intro obj err h
    simp [Get, h, Run.delivered]
  · intro row err
    refine ⟨?_, ?_, ?_⟩
    · intro h
      cases h
    · intro h
      cases h
    · intro h
      have hm := congrArg (fun r : StoreResult => r.Err.map LocError.Message) h
      revert hm
      simp only [NewLocError, Option.map_some']
      decide

/-- The witness of C9: a stored `ann`, a backing store without rows, and a
backing store that answers `connection refused`. -/
theorem Get_three_outcomes_witness :
    (Get (countingDb ann 1) "p1").delivered
      = some { Data := some (StoreData.player ann), Err := none } ∧
    (Get emptyDb "nonexistent-id").delivered = some
      { Data := none
        Err := some (NewLocError "SqlPlayerStore.Get" "Missing player error"
          ("player_id=" ++ "nonexistent-id")) } ∧
    (Get (failingDb "connection refused") "p1").delivered = some
      { Data := none
        Err := some (NewLocError "SqlPlayerStore.Get" "Get player by id error"
          ("player_id=" ++ "p1" ++ ", " ++ "connection refused")) } :=
  ⟨(Get_three_outcomes (countingDb ann 1) "p1").1 ann rfl,
   (Get_three_outcomes emptyDb "nonexistent-id").2.1 rfl,
   (Get_three_outcomes (failingDb "connection refused") "p1").2.2.1 none
     "connection refused" rfl⟩

/-! ## The channel protocol -/

/-- C7: on every path of the body of each of the ten operations the channel
sees one send followed by the close, and nothing else. -/
theorem one_send_then_close (env : Env) (db : DbMap) (p : Player) (id s : String) :
    (∃ r, (Save env db p).events = [ChanEvent.send r, ChanEvent.close]) ∧
    (∃ r, (Update env db p).events = [ChanEvent.send r, ChanEvent.close]) ∧
    (∃ r, (UpdateUpdateAt env db id).events = [ChanEvent.send r, ChanEvent.close]) ∧
    (∃ r, (UpdatePassword db id s).events = [ChanEvent.send r, ChanEvent.close]) ∧
    (∃ r, (Get db id).events = [ChanEvent.send r, ChanEvent.close]) ∧
    (∃ r, (GetAll db).events = [ChanEvent.send r, ChanEvent.close]) ∧
    (∃ r, (GetByEmail env db s).events = [ChanEvent.send r, ChanEvent.close]) ∧
    (∃ r, (GetByUsername env db s).events = [ChanEvent.send r, ChanEvent.close]) ∧
    (∃ r, (GetTotalPlayersCount db).events = [ChanEvent.send r, ChanEvent.close]) ∧
    (∃ r, (PermanentDelete db id).events = [ChanEvent.send r, ChanEvent.close]) := by
  refine ⟨?_, ?_, ?_, ?_, ?_, ?_, ?_, ?_, ?_, ?_⟩
  · dsimp only [Save]
    split
    · exact ⟨_, rfl⟩
    · exact ⟨_, rfl⟩
  · dsimp only [Update]
    split
    · exact ⟨_, rfl⟩
    · split <;> exact ⟨_, rfl⟩
  · exact ⟨_, rfl⟩
  · exact ⟨_, rfl⟩
  · exact ⟨_, rfl⟩
  · exact ⟨_, rfl⟩
  · exact ⟨_, rfl⟩
  · exact ⟨_, rfl⟩
  · exact ⟨_, rfl⟩
  · exact ⟨_, rfl⟩

/-! ## Where the operations depart from the error policy -/

/-- In `Save` the name of the column, `Playername`, is among the names of the
second test; in `Update` the list starts with `Username`.  An error text that
the classifier accepts for the first list only is a duplicate user name for
`Save` and a generic failure for `Update`. -/
theorem Update_Save_kind_differs (env : Env) (db : DbMap) (p old : Player) (err : String)
    (hs : env.IsValid (env.PreSave p) = none)
    (hv : env.IsValid (env.PreUpdate p) = none)
    (hi : db.Insert (env.PreSave p) = some err)
    (hg : db.Get env.PlayerId = (some old, none))
    (hu : db.Update (overwriteFromOld env.trustedUpdateData (env.PreUpdate p) old) = (0, some err))
    (he : env.IsUniqueConstraintError err
      ["Email", "players_email_key", "idx_players_email_unique"] = false)
    (hp : env.IsUniqueConstraintError err
      ["Playername", "players_username_key", "idx_players_username_unique"] = true)
    (hn : env.IsUniqueConstraintError err
      ["Username", "players_username_key", "idx_players_username_unique"] = false) :
    ((Save env db p).delivered.bind StoreResult.Err).map LocError.Message
      = some "Username already exists" ∧
    ((Update env db p).delivered.bind StoreResult.Err).map LocError.Message
      = some "Player updating error" := by
  constructor
  · simp [Save, hs, hi, he, hp, Run.delivered, NewLocError]
  · simp [Update, hv, hg, hu, he, hn, Run.delivered, NewLocError]

/-- C3, evaluated: the backing store answers the insert and the update of `ann`
with the text of a unique-key violation on `Playername`.  `Save` delivers
`Username already exists`, `Update` delivers the generic `Player updating
error`. -/
theorem Update_Playername_violation_is_generic :
    IsUniqueConstraintError playernameViolation
      ["Playername", "players_username_key", "idx_players_username_unique"] = true ∧
    ((Save sampleEnv (conflictDb playernameViolation) ann).delivered.bind StoreResult.Err).map
      LocError.Message = some "Username already exists" ∧
    ((Update sampleEnv (conflictDb playernameViolation) ann).delivered.bind StoreResult.Err).map
      LocError.Message = some "Player updating error" := by
  decide

/-- The seven operations that assign `Data` in an `else` branch never deliver
a result with both fields set. -/
theorem Err_excludes_Data (env : Env) (db : DbMap) (p : Player) (id s : String)
    (r : StoreResult)
    (h : (Save env db p).delivered = some r ∨ (Update env db p).delivered = some r ∨
      (UpdateUpdateAt env db id).delivered = some r ∨ (UpdatePassword db id s).delivered = some r ∨
      (Get db id).delivered = some r ∨ (GetTotalPlayersCount db).delivered = some r ∨
      (PermanentDelete db id).delivered = some r) :
    r.Err ≠ none → r.Data = none := by
  rcases h with h | h | h | h | h | h | h
  · dsimp only [Save] at h
    split at h
    · simp only [Run.delivered, Option.some.injEq] at h
      subst h; intro _; rfl
    · rename_i hv
      simp only [Run.delivered, Option.some.injEq] at h
      subst h
      split
      · split
        · intro _; rfl
        · split <;> (intro _; rfl)
      · intro hne
        exact absurd (by simpa using hv) hne
  · dsimp only [Update] at h
    split at h
    · simp only [Run.delivered, Option.some.injEq] at h
      subst h; intro _; rfl
    · rename_i hv
      split at h
      · simp only [Run.delivered, Option.some.injEq] at h
        subst h; intro _; rfl
      · simp only [Run.delivered, Option.some.injEq] at h
        subst h; intro _; rfl
      · simp only [Run.delivered, Option.some.injEq] at h
        subst h
        split
        · split
          · intro _; rfl
          · split <;> (intro _; rfl)
        · split
          · intro _; rfl
          · intro hne
            exact absurd (by simpa using hv) hne
  · simp only [UpdateUpdateAt, Run.delivered, Option.some.injEq] at h
    subst h
    split <;> simp
  · simp only [UpdatePassword, Run.delivered, Option.some.injEq] at h
    subst h
    split <;> simp
  · simp only [Get, Run.delivered, Option.some.injEq] at h
    subst h
    split <;> simp
  · simp only [GetTotalPlayersCount, Run.delivered, Option.some.injEq] at h
    subst h
    split <;> simp
  · simp only [PermanentDelete, Run.delivered, Option.some.injEq] at h
    subst h
    split <;> simp

/-- The three lookups that assign `Data` after the `if` always deliver data,
also next to an error. -/
theorem lookups_always_set_Data (env : Env) (db : DbMap) (s : String) :
    (∃ r, (GetAll db).delivered = some r ∧ r.Data ≠ none) ∧
    (∃ r, (GetByEmail env db s).delivered = some r ∧ r.Data ≠ none) ∧
    (∃ r, (GetByUsername env db s).delivered = some r ∧ r.Data ≠ none) := by
  refine ⟨⟨_, rfl, ?_⟩, ⟨_, rfl, ?_⟩, ⟨_, rfl, ?_⟩⟩ <;> simp

/-- C6, evaluated: no player has the email `a@x.com`, `SelectOne` answers
`sql: no rows in result set`, and the result `GetByEmail` delivers has the
error set and, as data, the empty record it passed to the query. -/
theorem GetByEmail_sets_Data_and_Err :
    (GetByEmail sampleEnv emptyDb "a@x.com").delivered = some
      { Data := some (StoreData.player Player.zero)
        Err := some (NewLocError "SqlPlayerStore.GetByEmail" "Missing player error"
          "email=a@x.com, sql: no rows in result set") } := by
  decide

/-- The detail `"player_id=" ++ id ++ ", " ++ err` carries both the id and the
error text. -/
theorem detail_carries_both (pre id err : String) :
    containsStr (pre ++ id ++ ", " ++ err) id = true ∧
    containsStr (pre ++ id ++ ", " ++ err) err = true := by
  constructor
  · rw [String.append_assoc pre id ", ", String.append_assoc pre (id ++ ", ") err,
      String.append_assoc id ", " err, ← String.append_assoc pre id (", " ++ err)]
    exact containsStr_append_mid pre id (", " ++ err)
  · exact containsStr_append_right _ _

/-- The errors of `Get` and `PermanentDelete` carry the id and the text of the
backing-store error in their detail. -/
theorem Get_PermanentDelete_detail (db : DbMap) (id err : String) :
    (∀ obj, db.Get id = (obj, some err) →
      ∃ e, (Get db id).delivered = some { Data := none, Err := some e } ∧
        containsStr e.Details id = true ∧ containsStr e.Details err = true) ∧
    (db.Exec "DELETE FROM Players WHERE Id = :PlayerId" [("PlayerId", SqlArg.str id)] = some err →
      ∃ e, (PermanentDelete db id).delivered = some { Data := none, Err := some e } ∧
        containsStr e.Details id = true ∧ containsStr e.Details err = true) := by
  constructor
  · intro obj h
    refine ⟨NewLocError "SqlPlayerStore.Get" "Get player by id error"
      ("player_id=" ++ id ++ ", " ++ err), ?_, ?_⟩
    · simp [Get, h, Run.delivered]
    · exact detail_carries_both "player_id=" id err
  · intro h
    refine ⟨NewLocError "SqlPlayerStore.PermanentDelete" "Permanent delete player error"
      ("playerId=" ++ id ++ ", " ++ err), ?_, ?_⟩
    · simp [PermanentDelete, h, Run.delivered]
    · exact detail_carries_both "playerId=" id err

/-- The errors of `Save` and `Update` for a failed write carry the id and the
text of the backing-store error in their detail, whatever the kind. -/
theorem Save_Update_detail (env : Env) (db : DbMap) (p old : Player) (err : String) :
    (env.IsValid (env.PreSave p) = none → db.Insert (env.PreSave p) = some err →
      ∃ e, (Save env db p).delivered = some { Data := none, Err := some e } ∧
        e.Details = "player_id=" ++ (env.PreSave p).Id ++ ", " ++ err) ∧
    (env.IsValid (env.PreUpdate p) = none →
      db.Get env.PlayerId = (some old, none) →
      (db.Update (overwriteFromOld env.trustedUpdateData (env.PreUpdate p) old)).2 = some err →
      ∃ e, (Update env db p).delivered = some { Data := none, Err := some e } ∧
        e.Details = "player_id=" ++
          (overwriteFromOld env.trustedUpdateData (env.PreUpdate p) old).Id ++ ", " ++ err) := by
  constructor
  · intro hv hi
    simp only [Save, hv, hi, Option.isSome_none, Bool.false_eq_true, if_false, Run.delivered]
    split
    · exact ⟨_, rfl, rfl⟩
    · split <;> exact ⟨_, rfl, rfl⟩
  · intro hv hg hu
    obtain ⟨n, hn⟩ : ∃ n, db.Update (overwriteFromOld env.trustedUpdateData (env.PreUpdate p) old)
        = (n, some err) := ⟨_, Prod.ext rfl hu⟩
    simp only [Update, hv, hg, hn, Option.isSome_none, Bool.false_eq_true, if_false,
      Run.delivered]
    split
    · exact ⟨_, rfl, rfl⟩
    · split <;> exact ⟨_, rfl, rfl⟩

/-- The errors of `UpdateUpdateAt` and `UpdatePassword` have the detail
`"player_id=" ++ id`, whatever the text of the backing-store error. -/
theorem targeted_updates_detail (env : Env) (db : DbMap) (id pw : String)
    (r : StoreResult) (e : LocError)
    (h : ((UpdateUpdateAt env db id).delivered = some r ∨
      (UpdatePassword db id pw).delivered = some r) ∧ r.Err = some e) :
    e.Details = "player_id=" ++ id := by
  obtain ⟨h | h, he⟩ := h
  · simp only [UpdateUpdateAt, Run.delivered, Option.some.injEq] at h
    subst h
    split at he
    · simp only [Option.some.injEq] at he
      subst he; rfl
    · simp at he
  · simp only [UpdatePassword, Run.delivered, Option.some.injEq] at h
    subst h
    split at he
    · simp only [Option.some.injEq] at he
      subst he; rfl
    · simp at he

/-- C8, evaluated: the backing store answers `connection refused`, which is no
uniqueness violation; the errors `UpdateUpdateAt` and `UpdatePassword` deliver
for player `p1` have the detail `player_id=p1`, in which the message of the
backing store does not occur. -/
theorem targeted_updates_drop_message :
    IsUniqueConstraintError "connection refused"
      ["Email", "players_email_key", "idx_players_email_unique"] = false ∧
    IsUniqueConstraintError "connection refused"
      ["Playername", "players_username_key", "idx_players_username_unique"] = false ∧
    (UpdateUpdateAt sampleEnv (failingDb "connection refused") "p1").delivered = some
      { Data := none
        Err := some (NewLocError "SqlPlayerStore.UpdateUpdateAt" "Player updated at error"
          "player_id=p1") } ∧
    (UpdatePassword (failingDb "connection refused") "p1" "secret").delivered = some
      { Data := none
        Err := some (NewLocError "SqlPlayerStore.UpdatePassword" "Player update password error"
          "player_id=p1") } ∧
    containsStr "player_id=p1" "connection refused" = false := by
  decide

end Gogogo
